import Mathlib

/-!
# Verification of `tools/tavant_tools.py` (Tavant Status Report builder)

Shallow embedding of the deck-building script.  Conventions:

* All lengths that the Python source writes as `Inches(x)` (with at most two
  decimal places) are represented in **hundredths of an inch** as naturals,
  so `Inches(13.33)` becomes `1333` and `Inches(0.3 * rows)` becomes
  `30 * rows`.  Font sizes `Pt(n)` are naturals in points.
* A slide is the list of shapes added to it, in insertion order; a shape is a
  rectangle (with its text frame), a text box, or a table.
* Record dictionaries (`Dict[str, str]` in Python) are association lists;
  `dictGet` models `d.get(key, "")`.
* Effects are isolated in an `Env`: the two `datetime.now().strftime` results
  and whether the body of the `try` block raises an exception (abstracted by
  the `str` rendering of the raised exception, `none` when no exception is
  raised).  Everything else in the script is a pure construction.
-/

/-- RGB colour triple, mirroring `pptx.dml.color.RgbColor`. -/
structure RgbColor where
  r : Nat
  g : Nat
  b : Nat
deriving Repr, DecidableEq

/-- The module-level `TAVANT_COLORS` dictionary. -/
def TAVANT_COLORS : String → RgbColor
  | "primary" => ⟨0, 0, 0⟩
  | "accent" => ⟨242, 101, 34⟩
  | "white" => ⟨255, 255, 255⟩
  | "dark" => ⟨51, 51, 51⟩
  | "light" => ⟨245, 245, 245⟩
  | _ => ⟨0, 0, 0⟩

/-- Paragraph alignments used by the script (`pptx.enum.text.PP_ALIGN`). -/
inductive PP_ALIGN where
  | LEFT
  | CENTER
  | RIGHT
deriving Repr, DecidableEq

/-- A paragraph of a text frame.  Fields the script does not set on a given
paragraph stay at the library defaults, modelled by `none` / `""`. -/
structure Paragraph where
  text : String := ""
  fontSizePt : Option Nat := none
  fontBold : Option Bool := none
  fontColor : Option RgbColor := none
  alignment : Option PP_ALIGN := none
  spaceAfterPt : Option Nat := none
deriving Repr, DecidableEq

/-- A table cell: its text plus the formatting the script assigns. -/
structure TableCell where
  text : String := ""
  fillColor : Option RgbColor := none
  fontSizePt : Option Nat := none
  fontBold : Option Bool := none
  fontColor : Option RgbColor := none
deriving Repr, DecidableEq

/-- A shape added to a slide.  Positions and sizes are in hundredths of an
inch, in the argument order of the corresponding `add_shape` / `add_textbox`
/ `add_table` call (left, top, width, height). -/
inductive Shape where
  | rect (left top width height : Nat) (fill : RgbColor) (paragraphs : List Paragraph)
  | textbox (left top width height : Nat) (paragraphs : List Paragraph)
  | table (left top width height : Nat) (colWidths : List Nat)
      (cells : List (List TableCell))
deriving Repr, DecidableEq

/-- A slide: the shapes added to it, in order. -/
structure Slide where
  shapes : List Shape
deriving Repr, DecidableEq

/-- The presentation object: slide dimensions and the slides added. -/
structure Pres where
  slideWidth : Nat
  slideHeight : Nat
  slides : List Slide
deriving Repr, DecidableEq

/-- The rows of a table shape (`[]` for non-table shapes). -/
def Shape.tableCells : Shape → List (List TableCell)
  | .table _ _ _ _ _ cells => cells
  | _ => []

/-- The column widths of a table shape (`[]` for non-table shapes). -/
def Shape.tableColWidths : Shape → List Nat
  | .table _ _ _ _ ws _ => ws
  | _ => []

/-- Total number of rows of a table shape. -/
def Shape.rowCount (s : Shape) : Nat :=
  s.tableCells.length

/-- Number of rows of a table shape beyond the first (header) row. -/
def Shape.dataRowCount (s : Shape) : Nat :=
  (s.tableCells.drop 1).length

/-- The texts of the first (header) row of a table shape. -/
def Shape.headerTexts (s : Shape) : List String :=
  (s.tableCells.headD []).map TableCell.text

/-- The text of the cell at row `r`, column `c` (as `table.cell(r, c).text`);
defaults resolve out-of-range accesses, which the theorems never make. -/
def Shape.cellText (s : Shape) (r c : Nat) : String :=
  ((s.tableCells.getD r []).getD c {}).text

/-- A Python record dictionary `Dict[str, str]`, as an association list. -/
abbrev RecordDict := List (String × String)

/-- `d.get(key, "")`: the value stored under `key`, or `""` when absent. -/
def dictGet (d : RecordDict) (key : String) : String :=
  match d.find? (fun kv => kv.fst == key) with
  | some kv => kv.snd
  | none => ""

/-- `project_name.replace(' ', '_')`: with a single-character pattern and
replacement, Python's `str.replace` is exactly a character map sending each
space to an underscore. -/
def replaceSpaces (s : String) : String :=
  ⟨s.data.map (fun c => if c = ' ' then '_' else c)⟩

/-- The ambient effects of one invocation: the two `datetime.now().strftime`
renderings and the exception behaviour of the `try` body (`none` when the
body, including `prs.save`, completes; `some m` when some step raises an
exception whose `str` rendering is `m`). -/
structure Env where
  todayStr : String
  timestamp : String
  exc : Option String
deriving Repr, DecidableEq

/-- The bound arguments of one `create_tavant_status_report` call, after
Python has filled in the declared defaults (`upcoming_milestones=None`,
`contact_info=""`, `output_path=None`). -/
structure Request where
  project_name : String
  period_label : String
  accomplishments : List String
  priorities : List RecordDict
  risks : List RecordDict
  milestones : List RecordDict
  upcoming_milestones : Option (List RecordDict) := none
  contact_info : String := ""
  output_path : Option String := none

/-- The dictionary returned by `create_tavant_status_report`; absent keys are
`none`. -/
structure BuildResult where
  success : Bool
  file_path : Option String := none
  slides_created : Option Nat := none
  message : Option String := none
  error : Option String := none
deriving Repr, DecidableEq

/-- `_create_title_slide`: background, accent bar, brand, headline, project
name, current date, period label. -/
def _create_title_slide (todayStr project_name period_label : String) : Slide :=
  { shapes := [
      Shape.rect 0 0 1333 750 (TAVANT_COLORS "primary") [({} : Paragraph)],
      Shape.rect 0 680 1333 15 (TAVANT_COLORS "accent") [({} : Paragraph)],
      Shape.textbox 50 40 400 50
        [{ text := "TAVANT", fontSizePt := some 24, fontBold := some true,
           fontColor := some (TAVANT_COLORS "accent") }],
      Shape.textbox 50 250 1200 100
        [{ text := "WEEKLY STATUS REPORT", fontSizePt := some 44, fontBold := some true,
           fontColor := some (TAVANT_COLORS "white") }],
      Shape.textbox 50 360 1000 50
        [{ text := "Project: " ++ project_name, fontSizePt := some 24,
           fontColor := some (TAVANT_COLORS "white") }],
      Shape.textbox 50 450 400 40
        [{ text := todayStr, fontSizePt := some 18,
           fontColor := some (TAVANT_COLORS "accent") }],
      Shape.textbox 50 500 800 30
        [{ text := period_label, fontSizePt := some 14,
           fontColor := some (TAVANT_COLORS "white") }] ] }

/-- `_add_section_header`: an accent-filled rectangle of height `Inches(0.35)`
carrying the header text. -/
def _add_section_header (text : String) (left top width : Nat) : Shape :=
  Shape.rect left top width 35 (TAVANT_COLORS "accent")
    [{ text := text, fontSizePt := some 11, fontBold := some true,
       fontColor := some (TAVANT_COLORS "white") }]

/-- The paragraphs of the accomplishments text box: one bullet per entry of
`accomplishments[:5]`; when the loop runs zero times the text frame keeps its
single pre-existing empty default paragraph. -/
def accomplishmentParagraphs (accomplishments : List String) : List Paragraph :=
  match (accomplishments.take 5).map (fun acc =>
      ({ text := "• " ++ acc, fontSizePt := some 10,
         fontColor := some (TAVANT_COLORS "dark"),
         spaceAfterPt := some 4 } : Paragraph)) with
  | [] => [({} : Paragraph)]
  | ps => ps

/-- A header-row cell: accent fill, 9 pt bold white text. -/
def headerCell (text : String) : TableCell :=
  { text := text, fillColor := some (TAVANT_COLORS "accent"), fontSizePt := some 9,
    fontBold := some true, fontColor := some (TAVANT_COLORS "white") }

/-- A data-row cell: 9 pt dark text, no fill set. -/
def dataCell (text : String) : TableCell :=
  { text := text, fontSizePt := some 9, fontColor := some (TAVANT_COLORS "dark") }

/-- `_add_priorities_table`: `min(len(priorities), 5) + 1` rows, 3 columns. -/
def _add_priorities_table (priorities : List RecordDict) : Shape :=
  Shape.table 650 140 650 (30 * (min priorities.length 5 + 1))
    [40, 420, 190]
    ((["#", "Description", "Owner"].map headerCell) ::
      (priorities.take 5).enum.map (fun ip =>
        [dataCell (toString (ip.fst + 1)),
         dataCell (dictGet ip.snd "description"),
         dataCell (dictGet ip.snd "owner")]))

/-- `_add_risks_table`: `min(len(risks), 3) + 1` rows, 5 columns. -/
def _add_risks_table (risks : List RecordDict) : Shape :=
  Shape.table 36 400 1260 (30 * (min risks.length 3 + 1))
    [40, 650, 200, 150, 220]
    ((["#", "Action Item", "Owner", "Target Date", "Status"].map headerCell) ::
      (risks.take 3).enum.map (fun ir =>
        [dataCell (toString (ir.fst + 1)),
         dataCell (dictGet ir.snd "description"),
         dataCell (dictGet ir.snd "owner"),
         dataCell (dictGet ir.snd "target_date"),
         dataCell (dictGet ir.snd "status")]))

/-- `_add_milestones_table`: `min(len(milestones), 6) + 1` rows, 4 columns. -/
def _add_milestones_table (milestones : List RecordDict) (top : Nat) : Shape :=
  Shape.table 36 top 1260 (30 * (min milestones.length 6 + 1))
    [50, 750, 230, 230]
    ((["#", "Milestone Description", "Target Date", "Status"].map headerCell) ::
      (milestones.take 6).enum.map (fun im =>
        [dataCell (toString (im.fst + 1)),
         dataCell (dictGet im.snd "description"),
         dataCell (dictGet im.snd "target_date"),
         dataCell (dictGet im.snd "status")]))

/-- `_add_upcoming_table`: `min(len(upcoming), 3) + 1` rows, 3 columns; no
index column. -/
def _add_upcoming_table (upcoming : List RecordDict) (top : Nat) : Shape :=
  Shape.table 36 top 1260 (30 * (min upcoming.length 3 + 1))
    [800, 230, 230]
    ((["Milestone", "Target Date", "Owner"].map headerCell) ::
      (upcoming.take 3).map (fun item =>
        [dataCell (dictGet item "description"),
         dataCell (dictGet item "target_date"),
         dataCell (dictGet item "owner")]))

/-- `_add_footer`: the right-aligned TAVANT footer text box. -/
def _add_footer : Shape :=
  Shape.textbox 1150 700 150 30
    [{ text := "TAVANT", fontSizePt := some 10, fontBold := some true,
       fontColor := some (TAVANT_COLORS "accent"), alignment := some PP_ALIGN.RIGHT }]

/-- `_create_executive_summary_slide`: title, underline, accomplishments
section, priorities table, risks table, footer. -/
def _create_executive_summary_slide (accomplishments : List String)
    (priorities risks : List RecordDict) : Slide :=
  { shapes := [
      Shape.textbox 36 30 1200 50
        [{ text := "Executive Summary", fontSizePt := some 28, fontBold := some true,
           fontColor := some (TAVANT_COLORS "dark") }],
      Shape.rect 36 80 1260 5 (TAVANT_COLORS "accent") [({} : Paragraph)],
      _add_section_header "Key Accomplishments for Last Period" 36 100 580,
      Shape.textbox 36 140 580 200 (accomplishmentParagraphs accomplishments),
      _add_section_header "Top Priorities for Next Period" 650 100 650,
      _add_priorities_table priorities,
      _add_section_header "Key Risks, Issues and Action Items" 36 360 1260,
      _add_risks_table risks,
      _add_footer ] }

/-- `_create_milestones_slide`: title, underline, milestones table at
`Inches(1.4)`, upcoming table at `Inches(4.6)`, footer. -/
def _create_milestones_slide (milestones upcoming : List RecordDict) : Slide :=
  { shapes := [
      Shape.textbox 36 30 1200 50
        [{ text := "Key Milestones", fontSizePt := some 28, fontBold := some true,
           fontColor := some (TAVANT_COLORS "dark") }],
      Shape.rect 36 80 1260 5 (TAVANT_COLORS "accent") [({} : Paragraph)],
      _add_section_header "Key Milestones and Status" 36 100 1260,
      _add_milestones_table milestones 140,
      _add_section_header "Upcoming Key Milestones" 36 420 1260,
      _add_upcoming_table upcoming 460,
      _add_footer ] }

/-- `_create_thank_you_slide`: background, accent bar, THANK YOU, brand, and —
only when `contact_info` is truthy, i.e. non-empty — the contact text box. -/
def _create_thank_you_slide (contact_info : String) : Slide :=
  { shapes := [
      Shape.rect 0 0 1333 750 (TAVANT_COLORS "primary") [({} : Paragraph)],
      Shape.rect 0 680 1333 15 (TAVANT_COLORS "accent") [({} : Paragraph)],
      Shape.textbox 50 280 1233 120
        [{ text := "THANK YOU", fontSizePt := some 56, fontBold := some true,
           fontColor := some (TAVANT_COLORS "white"),
           alignment := some PP_ALIGN.CENTER }],
      Shape.textbox 850 550 400 50
        [{ text := "TAVANT", fontSizePt := some 24, fontBold := some true,
           fontColor := some (TAVANT_COLORS "accent"),
           alignment := some PP_ALIGN.RIGHT }] ]
    ++ (if contact_info = "" then [] else
      [Shape.textbox 850 610 400 30
        [{ text := contact_info, fontSizePt := some 10,
           fontColor := some (TAVANT_COLORS "white"),
           alignment := some PP_ALIGN.RIGHT }]]) }

/-- The synthesized output path
`f"Tavant_WSR_{project_name.replace(' ', '_')}_{timestamp}.pptx"`. -/
def defaultOutputPath (env : Env) (project_name : String) : String :=
  "Tavant_WSR_" ++ replaceSpaces project_name ++ "_" ++ env.timestamp ++ ".pptx"

/-- The path actually saved to: the caller's `output_path` unless it is falsy
(`None` or `""`), in which case the synthesized path. -/
def resolvedOutputPath (env : Env) (req : Request) : String :=
  match req.output_path with
  | none => defaultOutputPath env req.project_name
  | some p => if p = "" then defaultOutputPath env req.project_name else p

/-- The presentation assembled inside the `try` block: 13.33 × 7.5 inch
slides, in the order title, executive summary, milestones, thank-you;
`upcoming_milestones or []` turns the `None` default into the empty list. -/
def buildPres (env : Env) (req : Request) : Pres :=
  { slideWidth := 1333, slideHeight := 750,
    slides := [
      _create_title_slide env.todayStr req.project_name req.period_label,
      _create_executive_summary_slide req.accomplishments req.priorities req.risks,
      _create_milestones_slide req.milestones (req.upcoming_milestones.getD []),
      _create_thank_you_slide req.contact_info ] }

/-- `create_tavant_status_report`: on a normal run the success dictionary with
the resolved path; when the `try` body raises an exception rendered as `e`,
the `except` clause returns the failure dictionary `{success: False,
error: str(e)}`.  The second component is the deck assembled in the `try`
block (the artifact saved on the success path). -/
def create_tavant_status_report (env : Env) (req : Request) : BuildResult × Pres :=
  (match env.exc with
   | some e => { success := false, error := some e }
   | none =>
     { success := true,
       file_path := some (resolvedOutputPath env req),
       slides_created := some 4,
       message := some "Tavant Status Report created successfully" },
   buildPres env req)

/-- The arguments supplied at a call site, before Python binds them to the
parameters (`none` = argument not supplied). -/
structure CallArgs where
  project_name : Option String := none
  period_label : Option String := none
  accomplishments : Option (List String) := none
  priorities : Option (List RecordDict) := none
  risks : Option (List RecordDict) := none
  milestones : Option (List RecordDict) := none
  upcoming_milestones : Option (Option (List RecordDict)) := none
  contact_info : Option String := none
  output_path : Option (Option String) := none

/-- Python's call binding for `create_tavant_status_report`: the six
parameters declared without default values (`project_name`, `period_label`,
`accomplishments`, `priorities`, `risks`, `milestones`) must all be supplied,
else the call raises `TypeError` before the function body (and its
`try` / `except`) is ever entered; the remaining parameters fall back to their
declared defaults. -/
def callCreateTavantStatusReport (env : Env) (args : CallArgs) :
    Except String BuildResult :=
  match args.project_name, args.period_label, args.accomplishments,
      args.priorities, args.risks, args.milestones with
  | some pn, some pl, some acc, some pr, some rk, some ms =>
    Except.ok (create_tavant_status_report env
      { project_name := pn, period_label := pl, accomplishments := acc,
        priorities := pr, risks := rk, milestones := ms,
        upcoming_milestones := args.upcoming_milestones.getD none,
        contact_info := args.contact_info.getD "",
        output_path := args.output_path.getD none }).fst
  | _, _, _, _, _, _ =>
    Except.error "TypeError: create_tavant_status_report() missing required positional arguments"

/-! ## Concrete fixtures used by the witnesses -/

/-- A run environment in which the `try` body completes normally. -/
def envOk : Env :=
  { todayStr := "December 13, 2025", timestamp := "20251213_101010", exc := none }

/-- A run environment in which `prs.save` raises `PermissionError`, whose
`str` rendering is the usual errno message. -/
def envErr : Env :=
  { todayStr := "December 13, 2025", timestamp := "20251213_101010",
    exc := some "[Errno 13] Permission denied: Tavant_WSR_Apollo_20251213_101010.pptx" }

/-- The example request of the spec: project Apollo, one accomplishment, all
other lists empty, no contact, no output path. -/
def reqApollo : Request :=
  { project_name := "Apollo", period_label := "Week Ending Dec 13, 2025",
    accomplishments := ["Completed data pipeline"],
    priorities := [], risks := [], milestones := [] }

/-! ## Helper lemmas about the table data rows -/

/-- Element `i` of the data rows built by `enumerate(l[:cap])`, for `i` below
`min (length l) cap`. -/
theorem enum_map_take_getD {α β : Type _} (l : List α) (cap : Nat) (f : Nat × α → β)
    (i : Nat) (h : i < min l.length cap) (d : β) (da : α) :
    ((l.take cap).enum.map f).getD i d = f (i, l.getD i da) := by
  have h1 : i < l.length := lt_of_lt_of_le h (min_le_left _ _)
  have h2 : i < cap := lt_of_lt_of_le h (min_le_right _ _)
  simp [List.getD_eq_getElem?_getD, List.getElem?_map, List.getElem?_enum,
    List.getElem?_take, h2, List.getElem?_eq_getElem h1]

/-- Element `i` of the data rows built by iterating over `l[:cap]` without an
index, for `i` below `min (length l) cap`. -/
theorem map_take_getD {α β : Type _} (l : List α) (cap : Nat) (f : α → β)
    (i : Nat) (h : i < min l.length cap) (d : β) (da : α) :
    ((l.take cap).map f).getD i d = f (l.getD i da) := by
  have h1 : i < l.length := lt_of_lt_of_le h (min_le_left _ _)
  have h2 : i < cap := lt_of_lt_of_le h (min_le_right _ _)
  simp [List.getD_eq_getElem?_getD, List.getElem?_map,
    List.getElem?_take, h2, List.getElem?_eq_getElem h1]

/-! ## Claim theorems -/

/-- C1: whenever `create_tavant_status_report` succeeds (the `try` body raises
no exception), the assembled presentation consists of exactly 4 slides, added
in the fixed order Title, Executive Summary, Milestones, Thank-You, and the
returned dictionary has `success = True`, the resolved file path,
`slides_created = 4`, and the message field. -/
theorem c1_success_four_slides_in_order (env : Env) (req : Request)
    (h : env.exc = none) :
    (create_tavant_status_report env req).fst.success = true ∧
    (create_tavant_status_report env req).fst.file_path
      = some (resolvedOutputPath env req) ∧
    (create_tavant_status_report env req).fst.slides_created = some 4 ∧
    (create_tavant_status_report env req).fst.message
      = some "Tavant Status Report created successfully" ∧
    (create_tavant_status_report env req).snd.slides
      = [_create_title_slide env.todayStr req.project_name req.period_label,
         _create_executive_summary_slide req.accomplishments req.priorities req.risks,
         _create_milestones_slide req.milestones (req.upcoming_milestones.getD []),
         _create_thank_you_slide req.contact_info] ∧
    (create_tavant_status_report env req).snd.slides.length = 4 := by
  simp [create_tavant_status_report, buildPres, h]

/-- Witness for C1 at the Apollo request in a normally-completing run. -/
theorem c1_witness :
    (create_tavant_status_report envOk reqApollo).fst.success = true ∧
    (create_tavant_status_report envOk reqApollo).fst.slides_created = some 4 ∧
    (create_tavant_status_report envOk reqApollo).snd.slides.length = 4 :=
  ⟨(c1_success_four_slides_in_order envOk reqApollo rfl).1,
   (c1_success_four_slides_in_order envOk reqApollo rfl).2.2.1,
   (c1_success_four_slides_in_order envOk reqApollo rfl).2.2.2.2.2⟩

/-- C2: each list is truncated to its fixed maximum before rendering: the
accomplishment bullets rendered are exactly `accomplishments[:5]` (at most 5),
and the priorities, risks, milestones and upcoming-milestones tables carry
exactly `min n 5`, `min n 3`, `min n 6` and `min n 3` data rows respectively,
regardless of how many records are supplied. -/
theorem c2_list_truncation_caps (accomplishments : List String)
    (priorities risks milestones upcoming : List RecordDict) :
    (accomplishments ≠ [] →
      (accomplishmentParagraphs accomplishments).map Paragraph.text
        = (accomplishments.take 5).map (fun a => "• " ++ a) ∧
      (accomplishmentParagraphs accomplishments).length
        = min accomplishments.length 5) ∧
    (accomplishmentParagraphs accomplishments).length ≤ 5 ∧
    (_add_priorities_table priorities).dataRowCount = min priorities.length 5 ∧
    (_add_risks_table risks).dataRowCount = min risks.length 3 ∧
    (_add_milestones_table milestones 140).dataRowCount = min milestones.length 6 ∧
    (_add_upcoming_table upcoming 460).dataRowCount = min upcoming.length 3 := by
  refine ⟨?_, ?_, ?_, ?_, ?_, ?_⟩
  · intro hne
    match accomplishments with
    | [] => exact absurd rfl hne
    | a :: as =>
      constructor
      · simp [accomplishmentParagraphs, List.map_map]
        rfl
      · simp [accomplishmentParagraphs, List.length_take]
        omega
  · match accomplishments with
    | [] => simp [accomplishmentParagraphs]
    | a :: as =>
      simp [accomplishmentParagraphs, List.length_take]
  · simp [Shape.dataRowCount, _add_priorities_table, Shape.tableCells,
      List.enum_length, List.length_take]
    omega
  · simp [Shape.dataRowCount, _add_risks_table, Shape.tableCells,
      List.enum_length, List.length_take]
    omega
  · simp [Shape.dataRowCount, _add_milestones_table, Shape.tableCells,
      List.enum_length, List.length_take]
    omega
  · simp [Shape.dataRowCount, _add_upcoming_table, Shape.tableCells,
      List.length_take]
    omega

/-- Witness for C2 at lists of 10 records: 10 accomplishments render 5
bullets, 10 risks render 3 rows, 10 milestones render 6 rows. -/
theorem c2_witness :
    (accomplishmentParagraphs ["a1", "a2", "a3", "a4", "a5", "a6", "a7", "a8", "a9", "a10"]).length
      = 5 ∧
    (_add_risks_table (List.replicate 10 [("description", "r")])).dataRowCount = 3 ∧
    (_add_milestones_table (List.replicate 10 [("description", "m")]) 140).dataRowCount = 6 := by
  have h := c2_list_truncation_caps ["a1", "a2", "a3", "a4", "a5", "a6", "a7", "a8", "a9", "a10"]
    [] (List.replicate 10 [("description", "r")])
    (List.replicate 10 [("description", "m")]) []
  exact ⟨(h.1 (by decide)).2, h.2.2.2.1, h.2.2.2.2.1⟩

/-- C3: when any exception is raised inside the `try` body of
`create_tavant_status_report` (slide assembly or `prs.save`, e.g. on an
unwritable output path), the exception is not propagated: the function
returns a dictionary with `success = False` whose `error` entry is the `str`
rendering of the exception — non-empty whenever that rendering is (as it is
for the OS errors an unwritable path raises). -/
theorem c3_exception_reported_not_propagated (env : Env) (req : Request)
    (m : String) (h : env.exc = some m) (hm : m ≠ "") :
    (create_tavant_status_report env req).fst.success = false ∧
    (create_tavant_status_report env req).fst.error = some m ∧
    (create_tavant_status_report env req).fst.error ≠ some "" ∧
    (create_tavant_status_report env req).fst.error ≠ none := by
  refine ⟨?_, ?_, ?_, ?_⟩ <;>
    simp_all [create_tavant_status_report]

/-- Witness for C3: a run in which `prs.save` raises `PermissionError`. -/
theorem c3_witness :
    (create_tavant_status_report envErr reqApollo).fst.success = false ∧
    (create_tavant_status_report envErr reqApollo).fst.error
      = some "[Errno 13] Permission denied: Tavant_WSR_Apollo_20251213_101010.pptx" ∧
    (create_tavant_status_report envErr reqApollo).fst.error ≠ some "" :=
  ⟨(c3_exception_reported_not_propagated envErr reqApollo _ rfl (by decide)).1,
   (c3_exception_reported_not_propagated envErr reqApollo _ rfl (by decide)).2.1,
   (c3_exception_reported_not_propagated envErr reqApollo _ rfl (by decide)).2.2.1⟩

/-- C4: the claim fails on the code.  `priorities`, `risks` and `milestones`
are declared without default values, so a call supplying only `project_name`,
`period_label` and `accomplishments` — the fields the in-file
`TAVANT_TOOL_DEFINITION` schema marks required — raises `TypeError` at call
binding, before the `try` block is entered, instead of building the deck with
empty lists. -/
theorem c4_missing_lists_raise_type_error :
    callCreateTavantStatusReport envOk
      { project_name := some "Apollo",
        period_label := some "Week Ending Dec 13, 2025",
        accomplishments := some ["Completed data pipeline"] }
      = Except.error
          "TypeError: create_tavant_status_report() missing required positional arguments" := by
  rfl

/-- C5: for every input list, each table has exactly `min n cap + 1` rows, the
extra row being the header row (its cells carry the fixed header labels), and
its column widths are the fixed per-table constants — Inches 0.4/4.2/1.9,
0.4/6.5/2.0/1.5/2.2, 0.5/7.5/2.3/2.3 and 8/2.3/2.3 in hundredths of an inch —
independent of the cell contents. -/
theorem c5_table_rows_and_fixed_widths
    (priorities risks milestones upcoming : List RecordDict) :
    ((_add_priorities_table priorities).rowCount = min priorities.length 5 + 1 ∧
     (_add_priorities_table priorities).tableColWidths = [40, 420, 190] ∧
     (_add_priorities_table priorities).headerTexts = ["#", "Description", "Owner"]) ∧
    ((_add_risks_table risks).rowCount = min risks.length 3 + 1 ∧
     (_add_risks_table risks).tableColWidths = [40, 650, 200, 150, 220] ∧
     (_add_risks_table risks).headerTexts
       = ["#", "Action Item", "Owner", "Target Date", "Status"]) ∧
    ((_add_milestones_table milestones 140).rowCount = min milestones.length 6 + 1 ∧
     (_add_milestones_table milestones 140).tableColWidths = [50, 750, 230, 230] ∧
     (_add_milestones_table milestones 140).headerTexts
       = ["#", "Milestone Description", "Target Date", "Status"]) ∧
    ((_add_upcoming_table upcoming 460).rowCount = min upcoming.length 3 + 1 ∧
     (_add_upcoming_table upcoming 460).tableColWidths = [800, 230, 230] ∧
     (_add_upcoming_table upcoming 460).headerTexts
       = ["Milestone", "Target Date", "Owner"]) := by
  refine ⟨⟨?_, rfl, rfl⟩, ⟨?_, rfl, rfl⟩, ⟨?_, rfl, rfl⟩, ⟨?_, rfl, rfl⟩⟩ <;>
    simp [Shape.rowCount, Shape.tableCells, _add_priorities_table, _add_risks_table,
      _add_milestones_table, _add_upcoming_table, List.enum_length, List.length_take] <;>
    omega

/-- C6: with an empty optional list, the corresponding table is still created
and consists of exactly its header row (zero data rows), and the build still
succeeds. -/
theorem c6_empty_lists_give_header_only_tables (env : Env) (req : Request)
    (h : env.exc = none) :
    ((_add_priorities_table []).rowCount = 1 ∧ (_add_priorities_table []).dataRowCount = 0 ∧
     (_add_risks_table []).rowCount = 1 ∧ (_add_risks_table []).dataRowCount = 0 ∧
     (_add_milestones_table [] 140).rowCount = 1 ∧
     (_add_milestones_table [] 140).dataRowCount = 0 ∧
     (_add_upcoming_table [] 460).rowCount = 1 ∧
     (_add_upcoming_table [] 460).dataRowCount = 0) ∧
    (create_tavant_status_report env
      { req with priorities := [], risks := [], milestones := [],
                 upcoming_milestones := some [] }).fst.success = true := by
  exact ⟨by decide, by simp [create_tavant_status_report, h]⟩

/-- Witness for C6 at the Apollo request in a normally-completing run. -/
theorem c6_witness :
    (_add_priorities_table []).rowCount = 1 ∧
    (_add_upcoming_table [] 460).dataRowCount = 0 ∧
    (create_tavant_status_report envOk
      { reqApollo with priorities := [], risks := [], milestones := [],
                       upcoming_milestones := some [] }).fst.success = true :=
  ⟨(c6_empty_lists_give_header_only_tables envOk reqApollo rfl).1.1,
   (c6_empty_lists_give_header_only_tables envOk reqApollo rfl).1.2.2.2.2.2.2.2,
   (c6_empty_lists_give_header_only_tables envOk reqApollo rfl).2⟩

/-- C7: when `contact_info` is omitted (defaulting to `""`) or empty, the
closing slide carries exactly the four contact-free shapes — the same first
four shapes it has with any `contact_info` — and the other three slides of
the build are unchanged; with a non-empty `contact_info` the sole difference
is the one extra contact text box appended at the end. -/
theorem c7_contact_info_only_affects_contact_box (env : Env) (req : Request)
    (c : String) :
    (buildPres env { req with contact_info := "" }).slides.take 3
      = (buildPres env { req with contact_info := c }).slides.take 3 ∧
    (_create_thank_you_slide "").shapes.length = 4 ∧
    (_create_thank_you_slide c).shapes.take 4 = (_create_thank_you_slide "").shapes ∧
    (c ≠ "" → (_create_thank_you_slide c).shapes
      = (_create_thank_you_slide "").shapes
        ++ [Shape.textbox 850 610 400 30
             [{ text := c, fontSizePt := some 10,
                fontColor := some (TAVANT_COLORS "white"),
                alignment := some PP_ALIGN.RIGHT }]]) := by
  refine ⟨rfl, rfl, rfl, fun hc => ?_⟩
  simp [_create_thank_you_slide, hc]

/-- Witness for C7: a concrete non-empty contact string. -/
theorem c7_witness :
    (_create_thank_you_slide "pm@tavant.com").shapes
      = (_create_thank_you_slide "").shapes
        ++ [Shape.textbox 850 610 400 30
             [{ text := "pm@tavant.com", fontSizePt := some 10,
                fontColor := some (TAVANT_COLORS "white"),
                alignment := some PP_ALIGN.RIGHT }]] :=
  (c7_contact_info_only_affects_contact_box envOk reqApollo "pm@tavant.com").2.2.2
    (by decide)

/-- C8: with no `output_path` supplied, the saved path is synthesized from the
project name (spaces replaced by underscores) and the current timestamp:
`Tavant_WSR_<project>_<timestamp>.pptx`; the result is success with
`slides_created = 4`. -/
theorem c8_default_output_path (env : Env) (req : Request)
    (h : env.exc = none) (hp : req.output_path = none) :
    (create_tavant_status_report env req).fst.success = true ∧
    (create_tavant_status_report env req).fst.file_path
      = some ("Tavant_WSR_" ++ replaceSpaces req.project_name ++ "_"
          ++ env.timestamp ++ ".pptx") ∧
    (create_tavant_status_report env req).fst.slides_created = some 4 := by
  refine ⟨?_, ?_, ?_⟩ <;>
    simp [create_tavant_status_report, resolvedOutputPath, defaultOutputPath, h, hp]

/-- Witness for C8: the Apollo request yields the literal synthesized path
containing the project name and the timestamp. -/
theorem c8_witness :
    (create_tavant_status_report envOk reqApollo).fst.success = true ∧
    (create_tavant_status_report envOk reqApollo).fst.file_path
      = some "Tavant_WSR_Apollo_20251213_101010.pptx" ∧
    (create_tavant_status_report envOk reqApollo).fst.slides_created = some 4 := by
  obtain ⟨h1, h2, h3⟩ := c8_default_output_path envOk reqApollo rfl rfl
  refine ⟨h1, ?_, h3⟩
  rw [h2]
  decide

/-- Data row `i` of the priorities table, for `i` below `min n 5`. -/
theorem priorities_data_row (priorities : List RecordDict) (i : Nat)
    (hi : i < min priorities.length 5) :
    (_add_priorities_table priorities).tableCells.getD (i + 1) []
      = [dataCell (toString (i + 1)),
         dataCell (dictGet (priorities.getD i []) "description"),
         dataCell (dictGet (priorities.getD i []) "owner")] := by
  simp only [_add_priorities_table, Shape.tableCells, List.getD_cons_succ]
  simpa using enum_map_take_getD priorities 5 _ i hi [] []

/-- Data row `j` of the risks table, for `j` below `min n 3`. -/
theorem risks_data_row (risks : List RecordDict) (j : Nat)
    (hj : j < min risks.length 3) :
    (_add_risks_table risks).tableCells.getD (j + 1) []
      = [dataCell (toString (j + 1)),
         dataCell (dictGet (risks.getD j []) "description"),
         dataCell (dictGet (risks.getD j []) "owner"),
         dataCell (dictGet (risks.getD j []) "target_date"),
         dataCell (dictGet (risks.getD j []) "status")] := by
  simp only [_add_risks_table, Shape.tableCells, List.getD_cons_succ]
  simpa using enum_map_take_getD risks 3 _ j hj [] []

/-- Data row `g` of the milestones table, for `g` below `min n 6`. -/
theorem milestones_data_row (milestones : List RecordDict) (top g : Nat)
    (hg : g < min milestones.length 6) :
    (_add_milestones_table milestones top).tableCells.getD (g + 1) []
      = [dataCell (toString (g + 1)),
         dataCell (dictGet (milestones.getD g []) "description"),
         dataCell (dictGet (milestones.getD g []) "target_date"),
         dataCell (dictGet (milestones.getD g []) "status")] := by
  simp only [_add_milestones_table, Shape.tableCells, List.getD_cons_succ]
  simpa using enum_map_take_getD milestones 6 _ g hg [] []

/-- Data row `u` of the upcoming-milestones table, for `u` below `min n 3`. -/
theorem upcoming_data_row (upcoming : List RecordDict) (top u : Nat)
    (hu : u < min upcoming.length 3) :
    (_add_upcoming_table upcoming top).tableCells.getD (u + 1) []
      = [dataCell (dictGet (upcoming.getD u []) "description"),
         dataCell (dictGet (upcoming.getD u []) "target_date"),
         dataCell (dictGet (upcoming.getD u []) "owner")] := by
  simp only [_add_upcoming_table, Shape.tableCells, List.getD_cons_succ]
  simpa using map_take_getD upcoming 3 _ u hu [] []

/-- C10: every data cell of the four tables is the `get`-with-default of the
record's key, so a record lacking an expected key renders as the empty string
without failing the build, and the index column of the priorities, risks and
milestones tables holds the 1-based position as a decimal string. -/
theorem c10_missing_keys_blank_and_one_based_index
    (r : RecordDict) (k : String) (hk : ∀ kv ∈ r, kv.fst ≠ k)
    (priorities risks milestones upcoming : List RecordDict) (i j g u : Nat)
    (hi : i < min priorities.length 5) (hj : j < min risks.length 3)
    (hg : g < min milestones.length 6) (hu : u < min upcoming.length 3) :
    dictGet r k = "" ∧
    ((_add_priorities_table priorities).cellText (i + 1) 0 = toString (i + 1) ∧
     (_add_priorities_table priorities).cellText (i + 1) 1
       = dictGet (priorities.getD i []) "description" ∧
     (_add_priorities_table priorities).cellText (i + 1) 2
       = dictGet (priorities.getD i []) "owner") ∧
    ((_add_risks_table risks).cellText (j + 1) 0 = toString (j + 1) ∧
     (_add_risks_table risks).cellText (j + 1) 1
       = dictGet (risks.getD j []) "description" ∧
     (_add_risks_table risks).cellText (j + 1) 2
       = dictGet (risks.getD j []) "owner" ∧
     (_add_risks_table risks).cellText (j + 1) 3
       = dictGet (risks.getD j []) "target_date" ∧
     (_add_risks_table risks).cellText (j + 1) 4
       = dictGet (risks.getD j []) "status") ∧
    ((_add_milestones_table milestones 140).cellText (g + 1) 0 = toString (g + 1) ∧
     (_add_milestones_table milestones 140).cellText (g + 1) 1
       = dictGet (milestones.getD g []) "description" ∧
     (_add_milestones_table milestones 140).cellText (g + 1) 2
       = dictGet (milestones.getD g []) "target_date" ∧
     (_add_milestones_table milestones 140).cellText (g + 1) 3
       = dictGet (milestones.getD g []) "status") ∧
    ((_add_upcoming_table upcoming 460).cellText (u + 1) 0
       = dictGet (upcoming.getD u []) "description" ∧
     (_add_upcoming_table upcoming 460).cellText (u + 1) 1
       = dictGet (upcoming.getD u []) "target_date" ∧
     (_add_upcoming_table upcoming 460).cellText (u + 1) 2
       = dictGet (upcoming.getD u []) "owner") := by
  have hfind : r.find? (fun kv => kv.fst == k) = none := by
    rw [List.find?_eq_none]
    intro kv hkv
    simpa using hk kv hkv
  have hp := priorities_data_row priorities i hi
  have hr := risks_data_row risks j hj
  have hg2 := milestones_data_row milestones 140 g hg
  have hu2 := upcoming_data_row upcoming 460 u hu
  refine ⟨by simp [dictGet, hfind], ?_, ?_, ?_, ?_⟩
  · exact ⟨by simp only [Shape.cellText]; rw [hp]; rfl,
      by simp only [Shape.cellText]; rw [hp]; rfl,
      by simp only [Shape.cellText]; rw [hp]; rfl⟩
  · exact ⟨by simp only [Shape.cellText]; rw [hr]; rfl,
      by simp only [Shape.cellText]; rw [hr]; rfl,
      by simp only [Shape.cellText]; rw [hr]; rfl,
      by simp only [Shape.cellText]; rw [hr]; rfl,
      by simp only [Shape.cellText]; rw [hr]; rfl⟩
  · exact ⟨by simp only [Shape.cellText]; rw [hg2]; rfl,
      by simp only [Shape.cellText]; rw [hg2]; rfl,
      by simp only [Shape.cellText]; rw [hg2]; rfl,
      by simp only [Shape.cellText]; rw [hg2]; rfl⟩
  · exact ⟨by simp only [Shape.cellText]; rw [hu2]; rfl,
      by simp only [Shape.cellText]; rw [hu2]; rfl,
      by simp only [Shape.cellText]; rw [hu2]; rfl⟩

/-- Witness for C10: a record carrying only an `owner` key renders a blank
description cell and the 1-based index "1" in the first data row. -/
theorem c10_witness :
    dictGet [("owner", "Alice")] "description" = "" ∧
    (_add_priorities_table [[("owner", "Alice")]]).cellText 1 0 = toString (0 + 1) ∧
    (_add_priorities_table [[("owner", "Alice")]]).cellText 1 1
      = dictGet ([[("owner", "Alice")]].getD 0 []) "description" := by
  have h := c10_missing_keys_blank_and_one_based_index
    [("owner", "Alice")] "description" (by decide)
    [[("owner", "Alice")]] [[("owner", "Alice")]] [[("owner", "Alice")]] [[("owner", "Alice")]]
    0 0 0 0 (by decide) (by decide) (by decide) (by decide)
  exact ⟨h.1, h.2.1.1, h.2.1.2.1⟩
